import Mathlib

/-!
Verification of the BEAST pipeline driver
(`examples/phat_small_multidistance/run_beast.py`) and the catalog wrapper
(`examples/production_runs_2019/datamodel.py`).

The development shallowly embeds:
* Python's `str.replace` (leftmost, non-overlapping, all occurrences) and the
  artifact file-name derivations of the trim and fit stages;
* the distance-unit conversion of the physicsmodel stage;
* the per-filter magnitude-cut computation of the ast stage (with numpy's
  default linear-interpolation percentile);
* the `GenFluxCatalog` flux accessor;
* the command-line driver as a trace semantics: each invocation produces the
  list of external calls / prints / writes it performs, in order.
-/

/-! ## Python `str.replace` -/

/-- One fuel-indexed pass of Python's `str.replace` over a character list:
replaces the leftmost occurrence of `pat`, then continues after it
(non-overlapping).  Faithful to Python for a nonempty `pat` (the only way it
is used here); fuel is consumed one unit per emitted character, so fuel
`xs.length` always suffices. -/
def replaceFuel (pat rep : List Char) : Nat → List Char → List Char
  | 0, l => l
  | _ + 1, [] => []
  | fuel + 1, c :: cs =>
    if pat.isPrefixOf (c :: cs) then
      rep ++ replaceFuel pat rep fuel (cs.drop (pat.length - 1))
    else
      c :: replaceFuel pat rep fuel cs

/-- Python's `s.replace(pat, rep)` on character lists (nonempty `pat`). -/
def replaceList (pat rep xs : List Char) : List Char :=
  replaceFuel pat rep xs.length xs

/-- Python's `s.replace(pat, rep)` on strings (nonempty `pat`). -/
def pyReplace (s pat rep : String) : String :=
  String.mk (replaceList pat.data rep.data s.data)

/-- Whether `pat` occurs (as a contiguous sublist) anywhere in `xs`. -/
def containsPat (pat : List Char) : List Char → Bool
  | [] => pat.isPrefixOf ([] : List Char)
  | c :: cs => pat.isPrefixOf (c :: cs) || containsPat pat cs

/-- Python's `pat in s` substring test. -/
def hasSubstr (s pat : String) : Bool :=
  containsPat pat.data s.data

/-! ## Artifact file-name derivations (run_beast.py)

All of these are straight-line string constructions from the source. -/

/-- `modelsedgridfile = datamodel.project + '/' + datamodel.project + '_seds.grid.hd5'`
(ast / observationmodel / trim branches). -/
def modelsedgridfile (project : String) : String :=
  project ++ "/" ++ project ++ "_seds.grid.hd5"

/-- `sed_trimname = modelsedgridfile.replace('_seds', '_seds_trim')` (trim branch). -/
def sed_trimname (project : String) : String :=
  pyReplace (modelsedgridfile project) "_seds" "_seds_trim"

/-- `noisemodel_trimname = sed_trimname.replace('_seds', '_noisemodel')` (trim branch). -/
def noisemodel_trimname (project : String) : String :=
  pyReplace (sed_trimname project) "_seds" "_noisemodel"

/-- Fit branch: `modelsedgrid = datamodel.project + '/' + datamodel.project + '_seds_trim.grid.hd5'`. -/
def fit_modelsedgrid (project : String) : String :=
  project ++ "/" ++ project ++ "_seds_trim.grid.hd5"

/-- Fit branch: `noisemodelfile = modelsedgrid.replace('_seds', '_noisemodel')`. -/
def fit_noisemodelfile (project : String) : String :=
  pyReplace (fit_modelsedgrid project) "_seds" "_noisemodel"

/-- Fit branch: `statsfile = datamodel.project + '/' + datamodel.project + '_stats.fits'`. -/
def statsfile (project : String) : String :=
  project ++ "/" ++ project ++ "_stats.fits"

/-- Fit branch: `pdf1dfile = statsfile.replace('stats.fits', 'pdf1d.fits')`. -/
def pdf1dfile (project : String) : String :=
  pyReplace (statsfile project) "stats.fits" "pdf1d.fits"

/-- Fit branch: `lnpfile = statsfile.replace('stats.fits', 'lnp.hd5')`. -/
def lnpfile (project : String) : String :=
  pyReplace (statsfile project) "stats.fits" "lnp.hd5"

/-- Ast branch: `filename = datamodel.project + '/' + datamodel.project + '_inputAST.txt'`. -/
def astInputFile (project : String) : String :=
  project ++ "/" ++ project ++ "_inputAST.txt"

/-! ## Distance-unit conversion (physicsmodel branch, run_beast.py lines 77-84)

```
distance_unit = datamodel.distances[0].unit
if distance_unit == units.mag:
    dmods = np.array([d.value for d in datamodel.distances])
    distances = np.power(10, dmods / 5. + 1) * units.pc
elif distance_unit == units.pc:
    distances = datamodel.distances
else:
    raise ValueError("distance modulus does not have mag or parsec units")
```
-/

/-- The astropy units that can tag a configured distance value.  `mag` is the
magnitude (distance-modulus) unit; `pc`, `km` and `lyr` are length units;
`deg` is a non-length unit.  The source compares the configured unit against
`units.mag` and `units.pc` only. -/
inductive AstroUnit
  | mag
  | pc
  | km
  | lyr
  | deg
deriving DecidableEq

/-- Whether a unit is a length unit (astropy `unit.physical_type == 'length'`). -/
def AstroUnit.isLength : AstroUnit → Bool
  | .pc => true
  | .km => true
  | .lyr => true
  | _ => false

/-- `np.power(10, d / 5. + 1)`: the linear distance in parsecs derived from a
distance modulus `d` (value arithmetic over the reals). -/
noncomputable def magToPc (d : ℚ) : ℝ :=
  (10 : ℝ) ^ ((d : ℝ) / 5 + 1)

/-- The distance conversion of the physicsmodel branch: given the unit of the
configured distance list and its numeric values, returns the linear distance
values together with their unit, or raises `ValueError`. -/
noncomputable def convertDistances (distance_unit : AstroUnit) (ds : List ℚ) :
    Except String (List ℝ × AstroUnit) :=
  if distance_unit = AstroUnit.mag then
    Except.ok (ds.map magToPc, AstroUnit.pc)
  else if distance_unit = AstroUnit.pc then
    Except.ok (ds.map (fun d => (d : ℝ)), AstroUnit.pc)
  else
    Except.error "distance modulus does not have mag or parsec units"

/-! ## Per-filter magnitude cuts (ast branch, run_beast.py lines 135-149) -/

/-- numpy's `np.percentile(xs, 90.)` with the default linear interpolation:
sort, take rank `r = (n-1) * 90/100`, and linearly interpolate between the
two neighbouring order statistics. -/
def percentile90 (xs : List ℚ) : ℚ :=
  let s := xs.insertionSort (fun a b => a ≤ b)
  let n := s.length
  let i : Nat := ((n - 1) * 90) / 100
  let r : ℚ := ((n - 1 : Nat) : ℚ) * 90 / 100
  let lo := s.getD i 0
  let hi := s.getD (i + 1) lo
  lo + (r - (i : ℚ)) * (hi - lo)

/-- `resolve_alias` of the catalog's table: logical filter names resolve to the
physical column names registered with `set_alias`; an unaliased name resolves
to itself.  Modelled from the spec ("exposes column aliasing so logical filter
names resolve to physical rate-column names"); the implementation lives in the
external table library. -/
def resolveAlias (aliases : List (String × String)) (name : String) : String :=
  match aliases.find? (fun p => p.1 == name) with
  | some p => p.2
  | none => name

/-- `sfiltername = obsdata.data.resolve_alias(filtername)` followed by
`.replace('rate', 'vega').replace('RATE', 'VEGA')`. -/
def vegaColName (aliases : List (String × String)) (filtername : String) : String :=
  pyReplace (pyReplace (resolveAlias aliases filtername) "rate" "vega") "RATE" "VEGA"

/-- The magnitude-cut computation of the ast branch: if the configured cut list
has exactly one element, replace it by, for each filter, the 90th percentile of
that filter's catalog magnitudes strictly below 99 (`keep, = np.where(obsdata[sfiltername] < 99.)`)
plus the single configured value (`mag_cuts = min_mags + tmp_cuts`, a numpy
broadcast of the one-element list); otherwise the configured list is used as is.
`col` maps a physical column name to that column of the observed catalog. -/
def astPerFilterCuts (filters : List String) (aliases : List (String × String))
    (col : String → List ℚ) (mag_cuts : List ℚ) : List ℚ :=
  if mag_cuts.length = 1 then
    filters.map (fun f =>
      percentile90 ((col (vegaColName aliases f)).filter (fun v => decide (v < 99)))
        + mag_cuts.getD 0 0)
  else
    mag_cuts

/-! ## GenFluxCatalog (datamodel.py lines 239-329) -/

/-- The value bound to the name `units` at a given point of `datamodel.py`.
At module level, `from astropy import units` binds the astropy module; inside
`GenFluxCatalog.getFlux` the boolean parameter of the same name shadows it. -/
inductive PyUnitsVal
  | pybool (b : Bool)
  | astropyUnits

/-- Python attribute access on such a value: the astropy module exposes its
unit objects by name; attribute access on a `bool` raises `AttributeError`. -/
def pyGetattr : PyUnitsVal → String → Except String String
  | .astropyUnits, attrName => Except.ok attrName
  | .pybool _, attrName =>
    Except.error ("AttributeError: bool object has no attribute " ++ attrName)

/-- Result of `getFlux`: the per-filter flux vector, either bare or tagged
with a physical unit. -/
inductive FluxResult
  | plain (flux : List ℚ)
  | withUnits (flux : List ℚ) (unit : String)
deriving DecidableEq

/-- The state of a `GenFluxCatalog` after `__init__`: the filter list, the
column aliases registered by `set_alias`, the per-filter Vega reference fluxes
precomputed by `setFilters`, the catalog rows (each a map from physical column
name to value), and the sentinel bad value set by `setBadValue(6e-40)`. -/
structure GenFluxCatalog where
  filters : List String
  aliases : List (String × String)
  vega_flux : List ℚ
  data : List (String → ℚ)
  bad_value : ℚ

/-- `GenFluxCatalog.__init__`: sets the filters (which precomputes
`self.vega_flux` from the scoped `Vega()` source, modelled by the lookup
`vega`), registers `set_alias(k, obs_colnames[ik])` for each filter, and sets
the bad value.  (When `obs_colnames` is shorter than `filters`, the source
would raise `IndexError`; the claims only use matching lengths.) -/
def mkGenFluxCatalog (vega : String → ℚ) (rows : List (String → ℚ))
    (filters obs_colnames : List String) : GenFluxCatalog :=
  { filters := filters
    aliases := filters.zip obs_colnames
    vega_flux := filters.map vega
    data := rows
    bad_value := 6 / 10 ^ 40 }

/-- `GenFluxCatalog.getFlux(num, units)`:
```
d = self.data[num]
flux = np.array([ d[self.data.resolve_alias(ok)] for ok in self.filters ]) * self.vega_flux
if units is True:
    return flux * units.erg / (units.s*units.cm*units.cm*units.angstrom)
else:
    return flux
```
In the `units is True` branch the name `units` resolves to the boolean
parameter (which shadows the module-level astropy import), so the attribute
access `units.erg` is evaluated on a `bool` and Python raises before the
multiplication; evaluation stops at that first attribute access. -/
def GenFluxCatalog.getFlux (cat : GenFluxCatalog) (num : Nat) (unitsArg : Bool) :
    Except String FluxResult :=
  let d := cat.data.getD num (fun _ => 0)
  let flux := (cat.filters.map (fun ok => d (resolveAlias cat.aliases ok))).zipWith
    (fun x y => x * y) cat.vega_flux
  if unitsArg then
    match pyGetattr (PyUnitsVal.pybool unitsArg) "erg" with
    | Except.error e => Except.error e
    | Except.ok u => Except.ok (FluxResult.withUnits flux u)
  else
    Except.ok (FluxResult.plain flux)

/-! ## The CLI driver as a trace semantics (run_beast.py `__main__`)

Each invocation of the driver is modelled as the ordered list of externally
visible steps it performs: calls into the BEAST library, file reads/writes
via those calls, prints, and a raised `ValueError`.  A raised error aborts the
rest of the invocation. -/

/-- The five pipeline stages, in the fixed order of the dispatch code. -/
inductive StageId
  | physicsmodel
  | ast
  | observationmodel
  | trim
  | fit
deriving DecidableEq

/-- One externally visible step of the driver. -/
inductive Event
  | verifyParams
  | stageStart (s : StageId)
  | createProjectDir (project : String)
  | makeIsoTable
  | makeSpectralGrid
  | addStellarPriors
  | makeGridWithDistances
  | makeExtinguishedSedGrid
  | raiseValueError (msg : String)
  | readSEDGrid (file : String)
  | getObsCat (file : String)
  | pickModels
  | pickPositions (file : String) (refimage : Option String)
  | printMsg (msg : String)
  | makeNoiseModel (noisefile astfile : String)
  | getNoiseModelCat (file : String)
  | trimModels (sedTrimFile noiseTrimFile : String)
  | summaryTable (resume : Bool) (sedfile noisefile stats pdf1d lnp : String)
  | printHelp
deriving DecidableEq

/-- The six independent boolean command-line flags of the argument parser. -/
structure Args where
  physicsmodel : Bool
  ast : Bool
  observationmodel : Bool
  trim : Bool
  fit : Bool
  resume : Bool
deriving DecidableEq

/-- `any(vars(args).values())`: `vars(args)` holds all six parsed flags,
including `resume`. -/
def anyFlag (a : Args) : Bool :=
  a.physicsmodel || a.ast || a.observationmodel || a.trim || a.fit || a.resume

/-- The configuration exposed by the `datamodel` module, restricted to the
fields the driver reads.  `paramsOk` stands for whether
`verify_params.verify_input_format(datamodel)` accepts the record (its body is
external). -/
structure Config where
  project : String
  paramsOk : Bool
  distance_unit : AstroUnit
  distances : List ℚ
  ast_maglimit : List ℚ
  ast_with_positions : Bool
  ast_reference_image : Option String
  obsfile : String
  noisefile : String
  astfile : String

/-- `verify_params.verify_input_format(datamodel)`: runs before any stage.
Modelled from the spec: "validates the configuration record (fails fast,
listing the problem, without starting work)". -/
def verifyStep (cfg : Config) : List Event × Bool :=
  if cfg.paramsOk then
    ([Event.verifyParams], true)
  else
    ([Event.verifyParams, Event.raiseValueError "invalid input parameters"], false)

/-- The physicsmodel branch: `create_project_dir`, `make_iso_table`, then the
distance conversion — which raises for a unit other than `mag`/`pc`, aborting
before `make_spectral_grid` — then the grid-building call chain.  The second
component records whether the branch completed without raising. -/
def physicsStage (cfg : Config) : List Event × Bool :=
  let pre := [Event.stageStart StageId.physicsmodel,
              Event.createProjectDir cfg.project,
              Event.makeIsoTable]
  if cfg.distance_unit = AstroUnit.mag ∨ cfg.distance_unit = AstroUnit.pc then
    (pre ++ [Event.makeSpectralGrid, Event.addStellarPriors,
             Event.makeGridWithDistances, Event.makeExtinguishedSedGrid], true)
  else
    (pre ++ [Event.raiseValueError "distance modulus does not have mag or parsec units"], false)

/-- The ast branch: loads the SED grid; when the configured magnitude-cut list
has exactly one element it additionally loads the observed catalog to derive
per-filter cuts; then `pick_models`, and `pick_positions` when positions are
requested (with the reference image when one is configured). -/
def astStage (cfg : Config) : List Event × Bool :=
  let base := [Event.stageStart StageId.ast,
               Event.readSEDGrid (modelsedgridfile cfg.project)]
  let cutPart := if cfg.ast_maglimit.length = 1 then [Event.getObsCat cfg.obsfile] else []
  let posPart :=
    if cfg.ast_with_positions then
      [Event.pickPositions (astInputFile cfg.project) cfg.ast_reference_image]
    else []
  (base ++ cutPart ++ [Event.pickModels] ++ posPart, true)

/-- The observationmodel branch. -/
def obsStage (cfg : Config) : List Event × Bool :=
  ([Event.stageStart StageId.observationmodel,
    Event.printMsg "Generating noise model from ASTs and absflux A matrix",
    Event.readSEDGrid (modelsedgridfile cfg.project),
    Event.makeNoiseModel cfg.noisefile cfg.astfile], true)

/-- The trim branch: loads the catalog, SED grid and noise model, derives the
two trimmed-output names by substring substitution, and calls `trim_models`. -/
def trimStage (cfg : Config) : List Event × Bool :=
  ([Event.stageStart StageId.trim,
    Event.printMsg "Trimming the model and noise grids",
    Event.getObsCat cfg.obsfile,
    Event.readSEDGrid (modelsedgridfile cfg.project),
    Event.getNoiseModelCat cfg.noisefile,
    Event.trimModels (sed_trimname cfg.project) (noisemodel_trimname cfg.project)], true)

/-- The fit branch: derives the trimmed grid and noise-model names, loads the
noise model and the catalog, prints the project, and calls
`fit.summary_table_memory` with `resume=args.resume`. -/
def fitStage (cfg : Config) (resumeArg : Bool) : List Event × Bool :=
  ([Event.stageStart StageId.fit,
    Event.getNoiseModelCat (fit_noisemodelfile cfg.project),
    Event.getObsCat cfg.obsfile,
    Event.printMsg cfg.project,
    Event.summaryTable resumeArg (fit_modelsedgrid cfg.project) (fit_noisemodelfile cfg.project)
      (statsfile cfg.project) (pdf1dfile cfg.project) (lnpfile cfg.project),
    Event.printMsg "time to fit"], true)

/-- Sequences the guarded stage blocks: a stage runs when its flag is set and
no earlier step raised; a raised error stops the invocation. -/
def runStages : List Event × Bool → List (Bool × (List Event × Bool)) → List Event × Bool
  | acc, [] => acc
  | acc, (cond, st) :: rest =>
    if acc.2 then
      if cond then runStages (acc.1 ++ st.1, st.2) rest else runStages acc rest
    else acc

/-- The stage blocks in the textual order of the dispatch code, each guarded
by its flag.  `args.resume` is consumed only by the fit block. -/
def stagesPair (cfg : Config) (a : Args) : List (Bool × (List Event × Bool)) :=
  [(a.physicsmodel, physicsStage cfg),
   (a.ast, astStage cfg),
   (a.observationmodel, obsStage cfg),
   (a.trim, trimStage cfg),
   (a.fit, fitStage cfg a.resume)]

/-- Everything the invocation does before the final help check. -/
def stagesTrace (cfg : Config) (a : Args) : List Event :=
  (runStages (verifyStep cfg) (stagesPair cfg a)).1

/-- Whether the invocation reached the final help check without raising. -/
def stagesOk (cfg : Config) (a : Args) : Bool :=
  (runStages (verifyStep cfg) (stagesPair cfg a)).2

/-- The whole invocation: the guarded stages followed by
`if not any(vars(args).values()): parser.print_help()`. -/
def runMain (cfg : Config) (a : Args) : List Event :=
  stagesTrace cfg a ++ (if stagesOk cfg a && !anyFlag a then [Event.printHelp] else [])

/-- Whether a step writes to the filesystem (each stage call persists its
artifact; reads, prints and the raised error do not write). -/
def writesFS : Event → Bool
  | Event.createProjectDir _ => true
  | Event.makeIsoTable => true
  | Event.makeSpectralGrid => true
  | Event.addStellarPriors => true
  | Event.makeGridWithDistances => true
  | Event.makeExtinguishedSedGrid => true
  | Event.pickModels => true
  | Event.pickPositions _ _ => true
  | Event.makeNoiseModel _ _ => true
  | Event.trimModels _ _ => true
  | Event.summaryTable _ _ _ _ _ _ => true
  | _ => false

/-- Whether a step builds a model grid (the spectral / distance-broadened /
extinguished-SED grid constructions; the isochrone step builds a table). -/
def isGridBuild : Event → Bool
  | Event.makeSpectralGrid => true
  | Event.makeGridWithDistances => true
  | Event.makeExtinguishedSedGrid => true
  | _ => false

/-- The stage-entry markers of a trace, in order. -/
def stageStartsOf (t : List Event) : List StageId :=
  t.filterMap (fun e => match e with
    | Event.stageStart s => some s
    | _ => none)

/-- The `resume` arguments passed to `fit.summary_table_memory` in a trace. -/
def summaryResumeArgs (t : List Event) : List Bool :=
  t.filterMap (fun e => match e with
    | Event.summaryTable r _ _ _ _ _ => some r
    | _ => none)

/-- Normalizes the `resume` argument of `fit.summary_table_memory` calls,
leaving every other step unchanged. -/
def normRes : Event → Event
  | Event.summaryTable _ sf nf st pf lf => Event.summaryTable false sf nf st pf lf
  | e => e

/-- The stages selected by a flag set, in the fixed dispatch order. -/
def selectedStages (a : Args) : List StageId :=
  (if a.physicsmodel then [StageId.physicsmodel] else [])
    ++ (if a.ast then [StageId.ast] else [])
    ++ (if a.observationmodel then [StageId.observationmodel] else [])
    ++ (if a.trim then [StageId.trim] else [])
    ++ (if a.fit then [StageId.fit] else [])

/-- A concrete valid configuration used to instantiate the theorems. -/
def sampleConfig : Config :=
  { project := "beast_example"
    paramsOk := true
    distance_unit := AstroUnit.mag
    distances := [37 / 2]
    ast_maglimit := [1]
    ast_with_positions := true
    ast_reference_image := none
    obsfile := "data/b15_4band_det_27_A.fits"
    noisefile := "beast_example/beast_example_noisemodel.hd5"
    astfile := "data/fake_stars.fits" }

/-- The stage-entry markers contributed by a guarded stage list. -/
def selectedOf (ps : List (Bool × (List Event × Bool))) : List StageId :=
  ps.foldr (fun q r => (if q.1 then stageStartsOf q.2.1 else []) ++ r) []

/-- A one-filter catalog used to instantiate the C5 theorem: the aliased rate
column `F475W_RATE` renames to the magnitude column `F475W_VEGA`, which holds
`[20, 21, 99, 25]`.  The valid (< 99) magnitudes are `[20, 21, 25]`, whose
90th percentile is `24.2`, so the derived cut is `24.2 + 1`. -/
def sampleFilters : List String := ["HST_WFC3_F475W"]

def sampleAliases : List (String × String) := [("HST_WFC3_F475W", "F475W_RATE")]

def sampleMagCol : String → List ℚ := fun c => if c == "F475W_VEGA" then [20, 21, 99, 25] else []

/-- A concrete one-filter, one-row catalog for the C6 witness. -/
def sampleVega : String → ℚ := fun s => if s == "HST_WFC3_F475W" then 2 else 3

def sampleRow : String → ℚ := fun s => if s == "F475W_RATE" then 5 else 7

/-! ## Helper lemmas: Python replace over path-shaped strings -/

theorem replaceFuel_nil (pat rep : List Char) (n : Nat) : replaceFuel pat rep n [] = [] := by
  cases n <;> rfl

theorem replaceFuel_fuel_irrel (pat rep : List Char) :
    ∀ (m : Nat) (xs : List Char) (n : Nat), xs.length ≤ m → xs.length ≤ n →
      replaceFuel pat rep m xs = replaceFuel pat rep n xs := by
  intro m
  induction m with
  | zero =>
    intro xs n hm _
    have hx : xs = [] := List.length_eq_zero.mp (Nat.le_zero.mp hm)
    subst hx
    simp [replaceFuel_nil]
  | succ m ih =>
    intro xs n hm hn
    cases xs with
    | nil => simp [replaceFuel_nil]
    | cons c cs =>
      cases n with
      | zero => simp at hn
      | succ n =>
        have hd : (cs.drop (pat.length - 1)).length ≤ cs.length := by
          simp [List.length_drop]
        simp only [replaceFuel]
        split
        · exact congrArg (rep ++ ·)
            (ih _ _ (le_trans hd (Nat.succ_le_succ_iff.mp hm))
              (le_trans hd (Nat.succ_le_succ_iff.mp hn)))
        · exact congrArg (c :: ·)
            (ih _ _ (Nat.succ_le_succ_iff.mp hm) (Nat.succ_le_succ_iff.mp hn))

theorem replaceList_cons_not_prefix (pat rep : List Char) (c : Char) (cs : List Char)
    (h : pat.isPrefixOf (c :: cs) = false) :
    replaceList pat rep (c :: cs) = c :: replaceList pat rep cs := by
  show replaceFuel pat rep (cs.length + 1) (c :: cs) = _
  simp only [replaceFuel, h]
  simp [replaceList]

theorem prefix_append_cases {α : Type} (pat p s : List α) (h : pat <+: p ++ s) :
    pat <+: p ∨ (p.length < pat.length ∧ pat.take p.length = p ∧ pat.drop p.length <+: s) := by
  have h1 : pat = (p ++ s).take pat.length := List.prefix_iff_eq_take.mp h
  rcases le_or_lt pat.length p.length with hle | hlt
  · left
    rw [List.take_append_eq_append_take, Nat.sub_eq_zero_of_le hle, List.take_zero,
      List.append_nil] at h1
    rw [h1]
    exact List.take_prefix _ _
  · right
    refine ⟨hlt, ?_, ?_⟩
    · conv_lhs => rw [h1]
      rw [List.take_take, Nat.min_eq_left (le_of_lt hlt), List.take_left]
    · conv_lhs => rw [h1]
      rw [List.drop_take, List.drop_left]
      exact List.take_prefix _ _

theorem containsPat_of_prefix (pat l : List Char) (h : pat <+: l) : containsPat pat l = true := by
  cases l with
  | nil =>
    show pat.isPrefixOf ([] : List Char) = true
    exact List.isPrefixOf_iff_prefix.mpr h
  | cons c cs =>
    show (pat.isPrefixOf (c :: cs) || containsPat pat cs) = true
    simp [List.isPrefixOf_iff_prefix.mpr h]

theorem prefix_head_eq {α : Type} (a b : α) (l m : List α) (h : (a :: l) <+: (b :: m)) :
    a = b := by
  rcases h with ⟨t, ht⟩
  injection ht with h1 _

theorem replaceList_append_left (pat rep : List Char) :
    ∀ (p s : List Char),
      containsPat pat p = false →
      (∀ k, 0 < k → k < pat.length → ¬ ((pat.take k) <:+ p ∧ (pat.drop k) <+: s)) →
      replaceList pat rep (p ++ s) = p ++ replaceList pat rep s := by
  intro p
  induction p with
  | nil => intro s _ _; rfl
  | cons c p ih =>
    intro s hc hk
    have hc' : pat.isPrefixOf (c :: p) = false ∧ containsPat pat p = false := by
      have : (pat.isPrefixOf (c :: p) || containsPat pat p) = false := hc
      exact Bool.or_eq_false_iff.mp this
    have hpre : pat.isPrefixOf (c :: p ++ s) = false := by
      cases hx : pat.isPrefixOf (c :: p ++ s) with
      | false => rfl
      | true =>
        exfalso
        have hx' : pat <+: (c :: p) ++ s := List.isPrefixOf_iff_prefix.mp hx
        rcases prefix_append_cases pat (c :: p) s hx' with hin | ⟨hlt, htake, hdrop⟩
        · have := containsPat_of_prefix pat (c :: p) hin
          rw [hc] at this
          exact Bool.false_ne_true this
        · refine hk (c :: p).length (by simp) hlt ⟨?_, hdrop⟩
          rw [htake]
    have hk' : ∀ k, 0 < k → k < pat.length → ¬ ((pat.take k) <:+ p ∧ (pat.drop k) <+: s) := by
      intro k h0 h5 ⟨hsuf, hpre2⟩
      exact hk k h0 h5 ⟨hsuf.trans (List.suffix_cons c p), hpre2⟩
    calc replaceList pat rep ((c :: p) ++ s)
        = replaceList pat rep (c :: (p ++ s)) := rfl
      _ = c :: replaceList pat rep (p ++ s) := replaceList_cons_not_prefix pat rep c (p ++ s) hpre
      _ = c :: (p ++ replaceList pat rep s) := by rw [ih s hc'.2 hk']
      _ = (c :: p) ++ replaceList pat rep s := rfl

theorem string_eq_of_data {a b : String} (h : a.data = b.data) : a = b := by
  cases a
  cases b
  exact congrArg String.mk h

theorem string_data_append (a b : String) : (a ++ b).data = a.data ++ b.data := rfl

theorem sedsPat_eq : "_seds".data = ['_', 's', 'e', 'd', 's'] := rfl

/-- Replacing `_seds` in `p ++ "/" ++ p ++ sfx` only touches `sfx`, provided the
project name `p` does not contain `_seds` and the suffix begins with an
underscore: no occurrence can contain the slash ( `_seds` has no `/` ), and no
occurrence can straddle the boundary between `p` and `sfx` because the only
underscore of `_seds` is its first character. -/
theorem replaceList_path_shape (rep p sfx : List Char)
    (hp : containsPat "_seds".data p = false) (hsfx : sfx.head? = some '_') :
    replaceList "_seds".data rep (p ++ '/' :: (p ++ sfx))
      = p ++ '/' :: (p ++ replaceList "_seds".data rep sfx) := by
  have hk1 : ∀ k, 0 < k → k < ("_seds".data).length →
      ¬ ((("_seds".data).take k) <:+ p ∧ (("_seds".data).drop k) <+: '/' :: (p ++ sfx)) := by
    rw [sedsPat_eq]
    intro k h0 h5
    simp only [List.length_cons, List.length_nil] at h5
    rintro ⟨-, hpre⟩
    interval_cases k
    · exact absurd (prefix_head_eq _ _ _ _ hpre) (by decide)
    · exact absurd (prefix_head_eq _ _ _ _ hpre) (by decide)
    · exact absurd (prefix_head_eq _ _ _ _ hpre) (by decide)
    · exact absurd (prefix_head_eq _ _ _ _ hpre) (by decide)
  have hk3 : ∀ k, 0 < k → k < ("_seds".data).length →
      ¬ ((("_seds".data).take k) <:+ p ∧ (("_seds".data).drop k) <+: sfx) := by
    rw [sedsPat_eq]
    intro k h0 h5
    simp only [List.length_cons, List.length_nil] at h5
    rintro ⟨-, hpre⟩
    cases sfx with
    | nil => simp at hsfx
    | cons x xs =>
      have hx : x = '_' := by
        simpa using hsfx
      subst hx
      interval_cases k
      · exact absurd (prefix_head_eq _ _ _ _ hpre) (by decide)
      · exact absurd (prefix_head_eq _ _ _ _ hpre) (by decide)
      · exact absurd (prefix_head_eq _ _ _ _ hpre) (by decide)
      · exact absurd (prefix_head_eq _ _ _ _ hpre) (by decide)
  have hslash : ("_seds".data).isPrefixOf ('/' :: (p ++ sfx)) = false := rfl
  rw [replaceList_append_left _ rep p ('/' :: (p ++ sfx)) hp hk1,
    replaceList_cons_not_prefix _ rep '/' (p ++ sfx) hslash,
    replaceList_append_left _ rep p sfx hp hk3]

theorem seds_grid_concrete :
    replaceList "_seds".data "_seds_trim".data "_seds.grid.hd5".data
      = "_seds_trim.grid.hd5".data := by decide

theorem seds_trim_concrete :
    replaceList "_seds".data "_noisemodel".data "_seds_trim.grid.hd5".data
      = "_noisemodel_trim.grid.hd5".data := by decide

theorem path_data (p sfx : String) :
    (p ++ "/" ++ p ++ sfx).data = p.data ++ '/' :: (p.data ++ sfx.data) := by
  simp [string_data_append, List.append_assoc]

theorem sed_trimname_eq (p : String) (hp : hasSubstr p "_seds" = false) :
    sed_trimname p = p ++ "/" ++ p ++ "_seds_trim.grid.hd5" := by
  apply string_eq_of_data
  show (pyReplace (modelsedgridfile p) "_seds" "_seds_trim").data = _
  rw [pyReplace]
  show replaceList "_seds".data "_seds_trim".data (modelsedgridfile p).data = _
  rw [show modelsedgridfile p = p ++ "/" ++ p ++ "_seds.grid.hd5" from rfl, path_data,
    replaceList_path_shape "_seds_trim".data p.data "_seds.grid.hd5".data hp rfl, seds_grid_concrete, path_data]

theorem noisemodel_trimname_eq (p : String) (hp : hasSubstr p "_seds" = false) :
    noisemodel_trimname p = p ++ "/" ++ p ++ "_noisemodel_trim.grid.hd5" := by
  apply string_eq_of_data
  show (pyReplace (sed_trimname p) "_seds" "_noisemodel").data = _
  rw [pyReplace]
  show replaceList "_seds".data "_noisemodel".data (sed_trimname p).data = _
  rw [sed_trimname_eq p hp, path_data, replaceList_path_shape "_noisemodel".data p.data "_seds_trim.grid.hd5".data hp rfl,
    seds_trim_concrete, path_data]

theorem fit_noisemodelfile_eq (p : String) (hp : hasSubstr p "_seds" = false) :
    fit_noisemodelfile p = p ++ "/" ++ p ++ "_noisemodel_trim.grid.hd5" := by
  apply string_eq_of_data
  show (pyReplace (fit_modelsedgrid p) "_seds" "_noisemodel").data = _
  rw [pyReplace]
  show replaceList "_seds".data "_noisemodel".data (fit_modelsedgrid p).data = _
  rw [show fit_modelsedgrid p = p ++ "/" ++ p ++ "_seds_trim.grid.hd5" from rfl, path_data,
    replaceList_path_shape "_noisemodel".data p.data "_seds_trim.grid.hd5".data hp rfl, seds_trim_concrete, path_data]

/-! ## Helper lemmas: list indexing and the stage sequencer -/

theorem getD_map_apply {α β : Type} (f : α → β) (d : α) :
    ∀ (l : List α) (n : Nat), (l.map f).getD n (f d) = f (l.getD n d) := by
  intro l
  induction l with
  | nil => intro n; simp
  | cons a l ih =>
    intro n
    cases n with
    | zero => simp
    | succ n => simp [ih n]

theorem zipWith_eq_range_map {α β γ : Type} (op : α → β → γ) (d1 : α) (d2 : β) :
    ∀ (l1 : List α) (l2 : List β), l1.length = l2.length →
      l1.zipWith op l2
        = (List.range l1.length).map (fun k => op (l1.getD k d1) (l2.getD k d2)) := by
  intro l1
  induction l1 with
  | nil => intro l2 _; simp
  | cons a l1 ih =>
    intro l2 h
    cases l2 with
    | nil => simp at h
    | cons b l2 =>
      have h' : l1.length = l2.length := by simpa using h
      simp only [List.zipWith_cons_cons, List.length_cons, List.range_succ_eq_map,
        List.map_cons, List.getD_cons_zero, List.map_map]
      refine congrArg (op a b :: ·) ?_
      rw [ih l2 h']
      refine List.map_congr_left ?_
      intro k _
      simp [Function.comp, List.getD_cons_succ]

theorem getD_map_lt {α β : Type} (f : α → β) (d : α) (d' : β) :
    ∀ (l : List α) (n : Nat), n < l.length → (l.map f).getD n d' = f (l.getD n d) := by
  intro l
  induction l with
  | nil => intro n h; simp at h
  | cons a l ih =>
    intro n h
    cases n with
    | zero => simp
    | succ n =>
      have h' : n < l.length := by simpa using h
      simpa using ih n h'

theorem runStages_ok_of (ps : List (Bool × (List Event × Bool))) :
    ∀ acc, (runStages acc ps).2 = true → acc.2 = true := by
  induction ps with
  | nil => intro acc h; exact h
  | cons q rest ih =>
    intro acc h
    rcases q with ⟨cond, st⟩
    by_cases ha : acc.2 = true
    · exact ha
    · rw [runStages, if_neg ha] at h
      exact absurd h ha

theorem stageStartsOf_append (t u : List Event) :
    stageStartsOf (t ++ u) = stageStartsOf t ++ stageStartsOf u := by
  simp [stageStartsOf, List.filterMap_append]

theorem runStages_starts (ps : List (Bool × (List Event × Bool))) :
    ∀ acc, (runStages acc ps).2 = true →
      stageStartsOf (runStages acc ps).1 = stageStartsOf acc.1 ++ selectedOf ps := by
  induction ps with
  | nil => intro acc _; simp [runStages, selectedOf]
  | cons q rest ih =>
    intro acc h
    rcases q with ⟨cond, st⟩
    have ha : acc.2 = true := runStages_ok_of _ _ h
    rw [runStages, if_pos ha] at h ⊢
    by_cases hc : cond = true
    · rw [if_pos hc] at h ⊢
      rw [ih _ h, stageStartsOf_append]
      simp [selectedOf, hc, List.append_assoc]
    · rw [if_neg hc] at h ⊢
      rw [ih _ h]
      simp [selectedOf, hc]

theorem summaryResumeArgs_append (t u : List Event) :
    summaryResumeArgs (t ++ u) = summaryResumeArgs t ++ summaryResumeArgs u := by
  simp [summaryResumeArgs, List.filterMap_append]

theorem runStages_map_normRes :
    ∀ (ps qs : List (Bool × (List Event × Bool))) (acc bcc : List Event × Bool),
      acc.1.map normRes = bcc.1.map normRes → acc.2 = bcc.2 →
      List.Forall₂ (fun x y => x.1 = y.1 ∧ x.2.1.map normRes = y.2.1.map normRes ∧ x.2.2 = y.2.2)
        ps qs →
      (runStages acc ps).1.map normRes = (runStages bcc qs).1.map normRes
        ∧ (runStages acc ps).2 = (runStages bcc qs).2 := by
  intro ps qs acc bcc h1 h2 hf
  induction hf generalizing acc bcc with
  | nil => exact ⟨h1, h2⟩
  | cons hpair _ ih =>
    rename_i x y ps' qs' _
    rcases x with ⟨c1, st1⟩
    rcases y with ⟨c2, st2⟩
    obtain ⟨hcond, hmap, hok⟩ := hpair
    have hcond' : c1 = c2 := hcond
    have hmap' : st1.1.map normRes = st2.1.map normRes := hmap
    have hok' : st1.2 = st2.2 := hok
    rw [runStages, runStages]
    by_cases ha : acc.2 = true
    · rw [if_pos ha, if_pos (h2.symm.trans ha)]
      by_cases hc : c1 = true
      · rw [if_pos hc, if_pos (hcond'.symm.trans hc)]
        exact ih _ _ (by simp [List.map_append, h1, hmap']) hok'
      · rw [if_neg hc, if_neg (fun hx => hc (hcond'.trans hx))]
        exact ih _ _ h1 h2
    · rw [if_neg ha, if_neg (fun hx => ha (h2.trans hx))]
      exact ⟨h1, h2⟩

theorem runStages_resumeArgs (r : Bool) :
    ∀ (ps : List (Bool × (List Event × Bool))) (acc : List Event × Bool),
      (summaryResumeArgs acc.1).all (fun b => b == r) = true →
      (∀ q ∈ ps, (summaryResumeArgs q.2.1).all (fun b => b == r) = true) →
      (summaryResumeArgs (runStages acc ps).1).all (fun b => b == r) = true := by
  intro ps
  induction ps with
  | nil => intro acc h _; exact h
  | cons q rest ih =>
    intro acc hacc hall
    rcases q with ⟨cond, st⟩
    rw [runStages]
    by_cases ha : acc.2 = true
    · rw [if_pos ha]
      by_cases hc : cond = true
      · rw [if_pos hc]
        refine ih _ ?_ (fun q hq => hall q (List.mem_cons_of_mem _ hq))
        have hst := hall (cond, st) (List.mem_cons_self _ _)
        simp only [summaryResumeArgs_append, List.all_append]
        simp [hacc, hst]
      · rw [if_neg hc]
        exact ih _ hacc (fun q hq => hall q (List.mem_cons_of_mem _ hq))
    · rw [if_neg ha]
      exact hacc

/-! ## Per-stage classification lemmas -/

theorem verifyStep_starts (cfg : Config) : stageStartsOf (verifyStep cfg).1 = [] := by
  rw [verifyStep]
  split <;> rfl

theorem verifyStep_resumeArgs (cfg : Config) : summaryResumeArgs (verifyStep cfg).1 = [] := by
  rw [verifyStep]
  split <;> rfl

theorem physicsStage_starts (cfg : Config) :
    stageStartsOf (physicsStage cfg).1 = [StageId.physicsmodel] := by
  rw [physicsStage]
  split <;> rfl

theorem physicsStage_resumeArgs (cfg : Config) :
    summaryResumeArgs (physicsStage cfg).1 = [] := by
  rw [physicsStage]
  split <;> rfl

theorem astStage_starts (cfg : Config) : stageStartsOf (astStage cfg).1 = [StageId.ast] := by
  rw [astStage]
  simp only [stageStartsOf, List.filterMap_append]
  split <;> split <;> rfl

theorem astStage_resumeArgs (cfg : Config) : summaryResumeArgs (astStage cfg).1 = [] := by
  rw [astStage]
  simp only [summaryResumeArgs, List.filterMap_append]
  split <;> split <;> rfl

theorem obsStage_starts (cfg : Config) :
    stageStartsOf (obsStage cfg).1 = [StageId.observationmodel] := rfl

theorem obsStage_resumeArgs (cfg : Config) : summaryResumeArgs (obsStage cfg).1 = [] := rfl

theorem trimStage_starts (cfg : Config) : stageStartsOf (trimStage cfg).1 = [StageId.trim] := rfl

theorem trimStage_resumeArgs (cfg : Config) : summaryResumeArgs (trimStage cfg).1 = [] := rfl

theorem fitStage_starts (cfg : Config) (r : Bool) :
    stageStartsOf (fitStage cfg r).1 = [StageId.fit] := rfl

theorem fitStage_resumeArgs (cfg : Config) (r : Bool) :
    summaryResumeArgs (fitStage cfg r).1 = [r] := rfl

theorem fitStage_normRes (cfg : Config) (r1 r2 : Bool) :
    (fitStage cfg r1).1.map normRes = (fitStage cfg r2).1.map normRes := rfl

/-! ## Claim C1 -/

/-- C1, counterexample: `km` carries a length unit, yet the physicsmodel
branch rejects it — the code passes through only parsec-united distance lists,
so a distance list with any other length unit does not pass through unchanged
but raises `ValueError`. -/
theorem length_unit_km_rejected :
    AstroUnit.isLength AstroUnit.km = true
  ∧ convertDistances AstroUnit.km [(5 : ℚ)]
      = Except.error "distance modulus does not have mag or parsec units"
  ∧ convertDistances AstroUnit.km [(5 : ℚ)]
      ≠ Except.ok ([(5 : ℚ)].map (fun d => (d : ℝ)), AstroUnit.km) :=
  ⟨rfl, rfl, fun h => Except.noConfusion h⟩

/-- C1 (amended): in the physicsmodel stage, a magnitude-united distance list
is converted entrywise to `10 ^ (d / 5 + 1)` parsecs; a parsec-united list
passes through unchanged; any other unit — length units other than parsec
included — raises the descriptive `ValueError` immediately after
`make_iso_table`, before any grid-building call runs. -/
theorem distance_conversion_branches (cfg : Config) (ds : List ℚ) (u : AstroUnit)
    (h1 : u ≠ AstroUnit.mag) (h2 : u ≠ AstroUnit.pc) :
    convertDistances AstroUnit.mag ds = Except.ok (ds.map magToPc, AstroUnit.pc)
  ∧ convertDistances AstroUnit.pc ds = Except.ok (ds.map (fun d => (d : ℝ)), AstroUnit.pc)
  ∧ convertDistances u ds = Except.error "distance modulus does not have mag or parsec units"
  ∧ (physicsStage { cfg with distance_unit := u }).1
      = [Event.stageStart StageId.physicsmodel, Event.createProjectDir cfg.project,
         Event.makeIsoTable,
         Event.raiseValueError "distance modulus does not have mag or parsec units"]
  ∧ ((physicsStage { cfg with distance_unit := u }).1.all (fun e => !isGridBuild e)) = true := by
  have h4 : (physicsStage { cfg with distance_unit := u }).1
      = [Event.stageStart StageId.physicsmodel, Event.createProjectDir cfg.project,
         Event.makeIsoTable,
         Event.raiseValueError "distance modulus does not have mag or parsec units"] := by
    rw [physicsStage, if_neg ?hcond]
    case hcond =>
      rintro (hx | hx)
      · exact h1 hx
      · exact h2 hx
    rfl
  refine ⟨?_, ?_, ?_, h4, ?_⟩
  · rw [convertDistances, if_pos rfl]
  · rw [convertDistances, if_neg (by decide), if_pos rfl]
  · rw [convertDistances, if_neg h1, if_neg h2]
  · rw [h4]
    rfl

/-- Witness for C1 at `u = km`, `ds = [18.5]`. -/
theorem distance_conversion_branches_witness :
    AstroUnit.km ≠ AstroUnit.mag ∧ AstroUnit.km ≠ AstroUnit.pc
  ∧ convertDistances AstroUnit.km [(37 / 2 : ℚ)]
      = Except.error "distance modulus does not have mag or parsec units" :=
  ⟨by decide, by decide,
    (distance_conversion_branches sampleConfig [37 / 2] AstroUnit.km (by decide)
      (by decide)).2.2.1⟩

/-! ## Claim C2 -/

/-- C2, counterexample: for the project `beast_example` the trim stage's
trimmed-noise-model filename is NOT the SED grid filename with `_seds`
replaced by `_noisemodel`: the replacement is applied to the already-trimmed
name, so the result carries `_noisemodel_trim`, not `_noisemodel`. -/
theorem trim_noisemodel_name_counterexample :
    noisemodel_trimname "beast_example"
      ≠ pyReplace (modelsedgridfile "beast_example") "_seds" "_noisemodel" := by decide

/-- C2 (amended): the trimmed-noise-model filename equals the trimmed SED grid
filename (the SED grid filename with `_seds` replaced by `_seds_trim`) with
`_seds` further replaced by `_noisemodel`, i.e.
`<project>/<project>_noisemodel_trim.grid.hd5`, for every project name that
does not contain `_seds`. -/
theorem trim_noisemodel_name_amended (p : String) (hp : hasSubstr p "_seds" = false) :
    noisemodel_trimname p = p ++ "/" ++ p ++ "_noisemodel_trim.grid.hd5" :=
  noisemodel_trimname_eq p hp

/-- Witness for C2 at the project name `beast_example`. -/
theorem trim_noisemodel_name_amended_witness :
    hasSubstr "beast_example" "_seds" = false
  ∧ noisemodel_trimname "beast_example"
      = "beast_example" ++ "/" ++ "beast_example" ++ "_noisemodel_trim.grid.hd5" :=
  ⟨by decide, trim_noisemodel_name_amended "beast_example" (by decide)⟩

/-! ## Claim C3 -/

/-- C3, counterexample: for the project name `x_seds` the noise-model filename
the fit stage derives differs from the trimmed-noise-model filename the trim
stage writes (the trim stage's first substitution also rewrites the `_seds`
inside the project name, the fit stage's single substitution rewrites it
differently). -/
theorem fit_trim_consistency_counterexample :
    fit_noisemodelfile "x_seds" ≠ noisemodel_trimname "x_seds" := by decide

/-- C3 (amended): for every project name that does not contain `_seds`, the
noise-model filename derived by the fit stage equals the trimmed-noise-model
filename written by the trim stage. -/
theorem fit_trim_noise_path_agree (p : String) (hp : hasSubstr p "_seds" = false) :
    fit_noisemodelfile p = noisemodel_trimname p := by
  rw [fit_noisemodelfile_eq p hp, noisemodel_trimname_eq p hp]

/-- Witness for C3 at the project name `phat_small`. -/
theorem fit_trim_noise_path_agree_witness :
    hasSubstr "phat_small" "_seds" = false
  ∧ fit_noisemodelfile "phat_small" = noisemodel_trimname "phat_small" :=
  ⟨by decide, fit_trim_noise_path_agree "phat_small" (by decide)⟩

/-! ## Claim C4 -/

/-- C4 (code bug): calling the flux accessor with the units option enabled
always raises `AttributeError` instead of returning the unit-tagged flux
vector: inside `getFlux` the boolean parameter `units` shadows the
module-level astropy `units` import, so `units.erg` is an attribute access on
`True`. -/
theorem getFlux_units_raises_attribute_error (cat : GenFluxCatalog) (num : Nat) :
    cat.getFlux num true
      = Except.error "AttributeError: bool object has no attribute erg" := rfl

/-! ## Claim C5 -/

/-- C5: in the ast stage, when the configured magnitude-cut list has exactly
one element, the per-filter cut used for model selection equals, for every
filter, the 90th percentile of that filter's catalog magnitudes strictly below
99 plus the configured scalar offset. -/
theorem single_magcut_is_percentile_plus_offset (fs : List String)
    (al : List (String × String)) (col : String → List ℚ) (mc : List ℚ)
    (hmc : mc.length = 1) (k : Nat) (hk : k < fs.length) :
    (astPerFilterCuts fs al col mc).getD k 0
      = percentile90 ((col (vegaColName al (fs.getD k ""))).filter (fun v => decide (v < 99)))
        + mc.getD 0 0 := by
  rw [astPerFilterCuts, if_pos hmc]
  exact getD_map_lt _ "" 0 fs k hk

/-- Witness for C5 on a concrete one-filter catalog. -/
theorem single_magcut_witness :
    ([(1 : ℚ)] : List ℚ).length = 1 ∧ 0 < sampleFilters.length
  ∧ (astPerFilterCuts sampleFilters sampleAliases sampleMagCol [1]).getD 0 0
      = percentile90 ((sampleMagCol (vegaColName sampleAliases (sampleFilters.getD 0 ""))).filter
          (fun v => decide (v < 99))) + ([(1 : ℚ)] : List ℚ).getD 0 0 :=
  ⟨rfl, by decide,
    single_magcut_is_percentile_plus_offset sampleFilters sampleAliases sampleMagCol [1] rfl 0
      (by decide)⟩

/-! ## Claim C6 -/

/-- C6: the flux accessor without the units option returns a vector over the
configured filters — so of length `filters.length` — whose `k`-th entry is the
row's value in the `k`-th filter's aliased rate column times the `k`-th stored
Vega reference flux precomputed at construction. -/
theorem getFlux_length_and_entries (vega : String → ℚ) (rows : List (String → ℚ))
    (fs cols : List String) (num : Nat) (h : num < rows.length) :
    (mkGenFluxCatalog vega rows fs cols).getFlux num false
      = Except.ok (FluxResult.plain ((List.range fs.length).map (fun k =>
          rows.get ⟨num, h⟩ (resolveAlias (fs.zip cols) (fs.getD k ""))
            * (mkGenFluxCatalog vega rows fs cols).vega_flux.getD k 0))) := by
  have hd : rows.getD num (fun _ => (0 : ℚ)) = rows.get ⟨num, h⟩ := List.getD_eq_get rows _ h
  show Except.ok (FluxResult.plain
      ((fs.map (fun ok => rows.getD num (fun _ => (0 : ℚ)) (resolveAlias (fs.zip cols) ok))).zipWith
        (fun x y => x * y) (fs.map vega))) = _
  rw [show (mkGenFluxCatalog vega rows fs cols).vega_flux = fs.map vega from rfl]
  rw [hd]
  rw [zipWith_eq_range_map (fun x y => x * y)
    (rows.get ⟨num, h⟩ (resolveAlias (fs.zip cols) "")) (0 : ℚ) _ _ (by simp)]
  rw [List.length_map]
  refine congrArg (fun l => Except.ok (FluxResult.plain l)) (List.map_congr_left ?_)
  intro k _
  rw [getD_map_apply (fun ok => rows.get ⟨num, h⟩ (resolveAlias (fs.zip cols) ok)) "" fs k]

/-- Witness for C6 on the concrete catalog: one filter, one row. -/
theorem getFlux_length_and_entries_witness :
    0 < ([sampleRow] : List (String → ℚ)).length
  ∧ (mkGenFluxCatalog sampleVega [sampleRow] ["HST_WFC3_F475W"] ["F475W_RATE"]).getFlux 0 false
      = Except.ok (FluxResult.plain ((List.range (["HST_WFC3_F475W"] : List String).length).map
          (fun k => ([sampleRow] : List (String → ℚ)).get ⟨0, by decide⟩
            (resolveAlias ((["HST_WFC3_F475W"] : List String).zip ["F475W_RATE"])
              ((["HST_WFC3_F475W"] : List String).getD k ""))
            * (mkGenFluxCatalog sampleVega [sampleRow] ["HST_WFC3_F475W"]
                ["F475W_RATE"]).vega_flux.getD k 0))) :=
  ⟨by decide,
    getFlux_length_and_entries sampleVega [sampleRow] ["HST_WFC3_F475W"] ["F475W_RATE"] 0
      (by decide)⟩

/-! ## Claim C7 -/

/-- C7: with none of the six flags set (and a configuration that passes the
input-format check), the invocation performs only the verification step and
the help print: it prints the usage help, enters no pipeline stage, performs
no filesystem write, and terminates without error. -/
theorem no_flags_prints_help_only (cfg : Config) (h : cfg.paramsOk = true) :
    runMain cfg ⟨false, false, false, false, false, false⟩
      = [Event.verifyParams, Event.printHelp]
  ∧ (runMain cfg ⟨false, false, false, false, false, false⟩).all (fun e => !writesFS e) = true
  ∧ stageStartsOf (runMain cfg ⟨false, false, false, false, false, false⟩) = []
  ∧ stagesOk cfg ⟨false, false, false, false, false, false⟩ = true := by
  have hv : verifyStep cfg = ([Event.verifyParams], true) := by rw [verifyStep, if_pos h]
  have ht : runMain cfg ⟨false, false, false, false, false, false⟩
      = [Event.verifyParams, Event.printHelp] := by
    rw [runMain, stagesTrace, stagesOk, stagesPair, hv]
    rfl
  refine ⟨ht, ?_, ?_, ?_⟩
  · rw [ht]
    rfl
  · rw [ht]
    rfl
  · rw [stagesOk, stagesPair, hv]
    rfl

/-- Witness for C7 on the sample configuration. -/
theorem no_flags_prints_help_only_witness :
    sampleConfig.paramsOk = true
  ∧ runMain sampleConfig ⟨false, false, false, false, false, false⟩
      = [Event.verifyParams, Event.printHelp] :=
  ⟨rfl, (no_flags_prints_help_only sampleConfig rfl).1⟩

/-! ## Claim C10 -/

/-- C10: with only the resume flag set (and a valid configuration), no
pipeline stage runs and the usage help is not printed either: `resume` makes
`any(vars(args).values())` true, so the help fallback is skipped and the
invocation ends after the verification step. -/
theorem resume_only_no_stage_no_help (cfg : Config) (h : cfg.paramsOk = true) :
    runMain cfg ⟨false, false, false, false, false, true⟩ = [Event.verifyParams]
  ∧ stageStartsOf (runMain cfg ⟨false, false, false, false, false, true⟩) = []
  ∧ Event.printHelp ∉ runMain cfg ⟨false, false, false, false, false, true⟩ := by
  have hv : verifyStep cfg = ([Event.verifyParams], true) := by rw [verifyStep, if_pos h]
  have ht : runMain cfg ⟨false, false, false, false, false, true⟩ = [Event.verifyParams] := by
    rw [runMain, stagesTrace, stagesOk, stagesPair, hv]
    rfl
  refine ⟨ht, ?_, ?_⟩
  · rw [ht]
    rfl
  · rw [ht]
    decide

/-- Witness for C10 on the sample configuration. -/
theorem resume_only_no_stage_no_help_witness :
    sampleConfig.paramsOk = true
  ∧ runMain sampleConfig ⟨false, false, false, false, false, true⟩ = [Event.verifyParams] :=
  ⟨rfl, (resume_only_no_stage_no_help sampleConfig rfl).1⟩

/-! ## Claim C9 -/

/-- C9: for every flag combination under which the invocation completes
without raising, each selected stage is entered exactly once and the entered
stages appear in the fixed dispatch order physicsmodel, ast, observationmodel,
trim, fit.  (Flags are a record: argparse makes the command-line order of the
flags immaterial.) -/
theorem stages_run_in_fixed_order (cfg : Config) (a : Args) (h : stagesOk cfg a = true) :
    stageStartsOf (runMain cfg a) = selectedStages a := by
  rw [runMain, stageStartsOf_append]
  have hh : stageStartsOf (if stagesOk cfg a && !anyFlag a then [Event.printHelp] else [])
      = [] := by
    split <;> rfl
  rw [hh, List.append_nil, stagesTrace]
  rw [stagesOk] at h
  rw [runStages_starts _ _ h, verifyStep_starts, List.nil_append]
  show selectedOf (stagesPair cfg a) = selectedStages a
  rw [stagesPair, selectedStages]
  simp [selectedOf, physicsStage_starts, astStage_starts, obsStage_starts, trimStage_starts,
    fitStage_starts]

/-- Witness for C9: all five stage flags set on the sample configuration. -/
theorem stages_run_in_fixed_order_witness :
    stagesOk sampleConfig ⟨true, true, true, true, true, false⟩ = true
  ∧ stageStartsOf (runMain sampleConfig ⟨true, true, true, true, true, false⟩)
      = selectedStages ⟨true, true, true, true, true, false⟩ :=
  ⟨by decide, stages_run_in_fixed_order sampleConfig ⟨true, true, true, true, true, false⟩
    (by decide)⟩

/-! ## Claim C8 -/

/-- C8: the resume flag affects only the fit stage.  For any two flag sets
differing only in `resume`, the stage part of the two invocations is
identical except for the `resume` argument of the `fit.summary_table_memory`
call, and that argument always equals the invocation's own resume flag. -/
theorem resume_only_affects_fit (cfg : Config) (a : Args) (r1 r2 : Bool) :
    (stagesTrace cfg { a with resume := r1 }).map normRes
      = (stagesTrace cfg { a with resume := r2 }).map normRes
  ∧ (summaryResumeArgs (stagesTrace cfg { a with resume := r1 })).all (fun b => b == r1)
      = true := by
  constructor
  · rw [stagesTrace, stagesTrace]
    refine (runStages_map_normRes _ _ _ _ rfl rfl ?_).1
    rw [stagesPair, stagesPair]
    refine List.Forall₂.cons ⟨rfl, rfl, rfl⟩ ?_
    refine List.Forall₂.cons ⟨rfl, rfl, rfl⟩ ?_
    refine List.Forall₂.cons ⟨rfl, rfl, rfl⟩ ?_
    refine List.Forall₂.cons ⟨rfl, rfl, rfl⟩ ?_
    exact List.Forall₂.cons ⟨rfl, fitStage_normRes cfg r1 r2, rfl⟩ List.Forall₂.nil
  · rw [stagesTrace]
    refine runStages_resumeArgs r1 _ _ ?_ ?_
    · rw [verifyStep_resumeArgs]
      rfl
    · intro q hq
      rw [stagesPair] at hq
      simp only [List.mem_cons, List.not_mem_nil, or_false] at hq
      rcases hq with rfl | rfl | rfl | rfl | rfl
      · show (summaryResumeArgs (physicsStage cfg).1).all (fun b => b == r1) = true
        rw [physicsStage_resumeArgs]
        rfl
      · show (summaryResumeArgs (astStage cfg).1).all (fun b => b == r1) = true
        rw [astStage_resumeArgs]
        rfl
      · show (summaryResumeArgs (obsStage cfg).1).all (fun b => b == r1) = true
        rw [obsStage_resumeArgs]
        rfl
      · show (summaryResumeArgs (trimStage cfg).1).all (fun b => b == r1) = true
        rw [trimStage_resumeArgs]
        rfl
      · show (summaryResumeArgs (fitStage cfg r1).1).all (fun b => b == r1) = true
        rw [fitStage_resumeArgs]
        simp
